import Mathlib

/-!
Verification development for the owid-grapher sources under scrutiny:
the sortable data table (charts/DataTable.tsx), the COVID data explorer
view model (charts/covidDataExplorer/CovidDataExplorer.tsx) and the
Algolia search-indexing batch script (scripts/indexToAlgolia.ts).

JavaScript numbers that can carry NaN or infinities are embedded as an
inductive over rationals with explicit non-finite constructors; fallible
derivations (array accesses that would throw a TypeError at runtime)
return Option.
-/

/-! ## Data table: basic types (charts/DataTable.tsx and DataTableTransform) -/

/-- SortOrder enum from charts/SortOrder. -/
inductive SortOrder where
  | asc
  | desc
deriving DecidableEq, Repr

/-- ColumnKey from DataTableTransform: SingleValueKey (single) plus
RangeValueKey (start, end, delta, deltaRatio). The TS key "end" is spelled
end_ here because end is a Lean keyword. -/
inductive ColumnKey where
  | single
  | start
  | end_
  | delta
  | deltaRatio
deriving DecidableEq, Repr

/-- A JavaScript number: a finite value (embedded as a rational) or one of
the non-finite values NaN, Infinity, -Infinity. -/
inductive JSNumber where
  | finite (q : Rat)
  | nan
  | pInf
  | nInf
deriving DecidableEq, Repr

/-- A table cell value as typed in the source: number or string. -/
inductive JSValue where
  | num (n : JSNumber)
  | str (s : String)
deriving DecidableEq, Repr

/-- Value from DataTableTransform: the raw value (possibly undefined),
its formatted text and the year it belongs to. -/
structure Value where
  value : Option JSValue
  formattedValue : String
  year : Option Int
deriving DecidableEq, Repr

/-- The four range columns of a range dimension value. -/
structure RangeVals where
  start : Option Value
  end_ : Option Value
  delta : Option Value
  deltaRatio : Option Value
deriving DecidableEq, Repr

/-- DimensionValue from DataTableTransform: either a single-value cell or a
start/end range cell. -/
inductive DimensionValue where
  | single (single : Option Value)
  | range (r : RangeVals)
deriving DecidableEq, Repr

/-- Field access dv[columnKey as RangeValueKey]; the key "single" is not a
member of RangeValueKey, so it reads as undefined. -/
def RangeVals.get (r : RangeVals) : ColumnKey → Option Value
  | ColumnKey.single => none
  | ColumnKey.start => r.start
  | ColumnKey.end_ => r.end_
  | ColumnKey.delta => r.delta
  | ColumnKey.deltaRatio => r.deltaRatio

/-- DataTableColumn: the claims only need its key. -/
structure DataTableColumn where
  key : ColumnKey
deriving DecidableEq, Repr

/-- DataTableDimension: the claims only need its columns. -/
structure DataTableDimension where
  columns : List DataTableColumn
deriving DecidableEq, Repr

/-- DataTableRow from DataTableTransform: the entity name and one optional
dimension value per dimension. -/
structure DataTableRow where
  entity : String
  dimensionValues : List (Option DimensionValue)
deriving DecidableEq, Repr

/-- Modelled from the spec: DataTableTransform (charts/DataTableTransform.tsx
is not under src). The spec describes it as the pivot of entity rows into
per-dimension display columns; the claims need its dimensions (with their
columns) and its displayRows. -/
structure DataTableTransform where
  dimensions : List DataTableDimension
  displayRows : List DataTableRow
deriving DecidableEq, Repr

/-- Modelled from the spec: dimensionsWithValues pairs each dimension with
its values, so it has the same dimensions in the same order; the claims only
read the columns, hence it coincides with dimensions here. -/
def DataTableTransform.dimensionsWithValues (t : DataTableTransform) : List DataTableDimension :=
  t.dimensions

/-- DataTableSortState from DataTable.tsx. -/
structure DataTableSortState where
  dimIndex : Int
  columnKey : Option ColumnKey
  order : SortOrder
deriving DecidableEq, Repr

/-- ENTITY_DIM_INDEX constant from DataTable.tsx. -/
def ENTITY_DIM_INDEX : Int := -1

/-- DEFAULT_SORT_STATE from DataTable.tsx. -/
def DEFAULT_SORT_STATE : DataTableSortState :=
  { dimIndex := ENTITY_DIM_INDEX, columnKey := none, order := SortOrder.asc }

/-- inverseSortOrder from DataTable.tsx. -/
def inverseSortOrder (order : SortOrder) : SortOrder :=
  match order with
  | SortOrder.asc => SortOrder.desc
  | SortOrder.desc => SortOrder.asc

/-- The derived sortState getter of DataTable (lines 77-102). The stored
state always carries all three fields, so the spread with
DEFAULT_SORT_STATE is the stored state itself. The dimension index is
clamped from above by Math.min; when the result is neither -1 nor a valid
index, the source dereferences undefined and throws, embedded as none. -/
def sortState (t : DataTableTransform) (stored : DataTableSortState) : Option DataTableSortState :=
  let dimIndex : Int := min stored.dimIndex ((t.dimensions.length : Int) - 1)
  if dimIndex = ENTITY_DIM_INDEX then
    some { dimIndex := dimIndex, columnKey := stored.columnKey, order := stored.order }
  else if dimIndex < 0 then
    none
  else
    match t.dimensionsWithValues[dimIndex.toNat]? with
    | none => none
    | some dim =>
      let availableColumns := dim.columns.map (fun c => c.key)
      let columnKey : Option ColumnKey :=
        match stored.columnKey with
        | none => availableColumns.head?
        | some k => if availableColumns.contains k then some k else availableColumns.head?
      some { dimIndex := dimIndex, columnKey := columnKey, order := stored.order }

/-! ## Sort keys and the orderBy comparison -/

/-- An extended number: the value actually compared after the mapper
replaced undefined and non-finite numbers by an infinity sentinel. -/
inductive XNum where
  | nInf
  | fin (q : Rat)
  | pInf
deriving DecidableEq, Repr

/-- A sort key produced by sortValueMapper: a number or a string. -/
inductive SortKey where
  | num (x : XNum)
  | str (s : String)
deriving DecidableEq, Repr

/-- Three-way comparison from a strict-less test. -/
def cmpOf (lt : α → α → Bool) (a b : α) : Ordering :=
  if lt a b then Ordering.lt else if lt b a then Ordering.gt else Ordering.eq

/-- Strict order on extended numbers, with -Infinity below every finite
value and +Infinity above. -/
def ltX : XNum → XNum → Bool
  | XNum.nInf, XNum.nInf => false
  | XNum.nInf, _ => true
  | XNum.fin _, XNum.nInf => false
  | XNum.fin a, XNum.fin b => decide (a < b)
  | XNum.fin _, XNum.pInf => true
  | XNum.pInf, _ => false

/-- JavaScript string comparison (lexicographic). -/
def strLt (s t : String) : Bool := decide (s < t)

/-- Comparison on sort keys. Modelled from the spec: the orderBy helper of
charts/Util (a lodash re-export, not under src) compares mapped keys;
numbers compare numerically, strings lexicographically, and a number never
compares above or below a non-numeric string, so mixed pairs are treated as
equal. -/
def cmpKey : SortKey → SortKey → Ordering
  | SortKey.num a, SortKey.num b => cmpOf ltX a b
  | SortKey.str a, SortKey.str b => cmpOf strLt a b
  | _, _ => Ordering.eq

/-- Comparison in the requested direction: descending flips the arguments. -/
def cmpKeyDir (order : SortOrder) (a b : SortKey) : Ordering :=
  match order with
  | SortOrder.asc => cmpKey a b
  | SortOrder.desc => cmpKey b a

/-- Non-strict key comparison in the requested direction. -/
def keyLeB (order : SortOrder) (a b : SortKey) : Bool :=
  match cmpKeyDir order a b with
  | Ordering.gt => false
  | _ => true

/-- Insert an element into a list before the first element it compares no
greater than. -/
def orderedInsert (le : α → α → Bool) (x : α) : List α → List α
  | [] => [x]
  | y :: ys => if le x y then x :: y :: ys else y :: orderedInsert le x ys

/-- Stable insertion sort. -/
def insertionSort (le : α → α → Bool) : List α → List α
  | [] => []
  | x :: xs => orderedInsert le x (insertionSort le xs)

/-- Modelled from the spec: orderBy from charts/Util (a lodash re-export,
not under src) returns the list stably sorted by the mapped key in the
requested order. -/
def orderBy (l : List α) (f : α → SortKey) (order : SortOrder) : List α :=
  insertionSort (fun a b => keyLeB order (f a) (f b)) l

/-- The sortValueMapper getter of DataTable (lines 112-148), as a function
of the derived sort state. Sorting by the entity column maps a row to its
entity name; otherwise the row maps to the value of the chosen dimension
column, with undefined and non-finite values replaced by an infinity
sentinel so that they always sort last. -/
def sortValueMapper (sort : DataTableSortState) (row : DataTableRow) : SortKey :=
  if sort.dimIndex = ENTITY_DIM_INDEX then SortKey.str row.entity
  else
    let dv : Option DimensionValue :=
      if sort.dimIndex < 0 then none
      else (row.dimensionValues.getD sort.dimIndex.toNat none)
    let value : Option JSValue :=
      match dv with
      | none => none
      | some (DimensionValue.single v) => v.bind Value.value
      | some (DimensionValue.range r) =>
        match sort.columnKey with
        | none => none
        | some k => (r.get k).bind Value.value
    match value with
    | some (JSValue.num (JSNumber.finite q)) => SortKey.num (XNum.fin q)
    | some (JSValue.str s) => SortKey.str s
    | _ => SortKey.num (if sort.order = SortOrder.asc then XNum.pInf else XNum.nInf)

/-- The displayRows getter of DataTable (lines 154-159): the transform rows
ordered by the sort value mapper in the current order. -/
def displayRows (t : DataTableTransform) (stored : DataTableSortState) : Option (List DataTableRow) :=
  (sortState t stored).map fun st => orderBy t.displayRows (sortValueMapper st) st.order

/-- updateSort from DataTable.tsx (lines 165-175): the stored sort state it
writes, given the current derived state. -/
def updateSort (t : DataTableTransform) (stored : DataTableSortState)
    (dimIndex : Int) (columnKey : Option ColumnKey) : Option DataTableSortState :=
  (sortState t stored).map fun sort =>
    { dimIndex := dimIndex, columnKey := columnKey,
      order :=
        if sort.dimIndex = dimIndex ∧ sort.columnKey = columnKey then inverseSortOrder sort.order
        else SortOrder.asc }

/-! ## Sample data-table inputs used by witnesses and counterexamples -/

/-- A value cell holding a finite number. -/
def valueOf (q : Rat) : Value := { value := some (JSValue.num (JSNumber.finite q)), formattedValue := "", year := none }

/-- A one-dimension transform with two rows. -/
def tSample : DataTableTransform :=
  { dimensions := [{ columns := [{ key := ColumnKey.single }] }],
    displayRows :=
      [ { entity := "Brazil", dimensionValues := [some (DimensionValue.single (some (valueOf 2)))] },
        { entity := "Austria", dimensionValues := [some (DimensionValue.single (some (valueOf 5)))] } ] }

/-- The default stored state: sorted ascending by entity. -/
def sortA : DataTableSortState := { dimIndex := ENTITY_DIM_INDEX, columnKey := none, order := SortOrder.asc }

/-- A stored state whose dimension index overshoots the dimension count and
whose column key is not offered by the dimension. -/
def sortOvershoot : DataTableSortState := { dimIndex := 7, columnKey := some ColumnKey.delta, order := SortOrder.desc }

/-! ## Covid data explorer (charts/covidDataExplorer/CovidDataExplorer.tsx) -/

/-- Modelled from the spec: the URL query parameters of the explorer
(CovidQueryParams, charts/covidDataExplorer/CovidChartUrl.ts is not under
src). The spec says URL query parameters encode the user-selected chart
options; the component reads the six metric flags, the two frequency
flags, the per-capita and aligned options and the smoothing window. -/
structure CovidQueryParams where
  casesMetric : Bool
  testsMetric : Bool
  deathsMetric : Bool
  cfrMetric : Bool
  testsPerCaseMetric : Bool
  positiveTestRate : Bool
  dailyFreq : Bool
  totalFreq : Bool
  perCapita : Bool
  aligned : Bool
  smoothing : Nat
deriving DecidableEq, Repr

/-- MetricKind from CovidTypes: the six metric column names. -/
inductive MetricKind where
  | tests
  | cases
  | deaths
  | case_fatality_rate
  | tests_per_case
  | positive_test_rate
deriving DecidableEq, Repr

/-- Position of a metric in the name list used to build variable ids. -/
def metricIndex : MetricKind → Nat
  | MetricKind.tests => 0
  | MetricKind.cases => 1
  | MetricKind.deaths => 2
  | MetricKind.case_fatality_rate => 3
  | MetricKind.tests_per_case => 4
  | MetricKind.positive_test_rate => 5

/-- Decimal concatenation of two naturals, as joining their digit strings. -/
def natConcat (a b : Nat) : Nat := a * 10 ^ (toString b).length + b

/-- Modelled from the spec: buildCovidVariableId from CovidDataUtils is not
under src. The spec describes a synthetic identifier built on the fly from
the chosen options; it joins a fixed positive prefix with the metric index,
the daily flag, the per-capita divisor and the rolling-average window. -/
def buildCovidVariableId (name : MetricKind) (perCapita : Nat) (rollingAverage : Nat)
    (daily : Bool) : Nat :=
  natConcat (natConcat (natConcat (natConcat 1145 (metricIndex name))
    (if daily then 1 else 0)) perCapita) rollingAverage

/-- perCapitaDivisor getter (lines 512-515): 1000 for tests, else a million. -/
def perCapitaDivisor (p : CovidQueryParams) : Nat :=
  if p.testsMetric then 1000 else 1000000

/-- perCapitaOptions getter (lines 517-523), as a function of the divisor. -/
def perCapitaOptions (n : Nat) : String :=
  if n = 1000 then "per 1,000 people"
  else if n = 1000000 then "per million people"
  else ""

/-- perCapitaTitle getter (lines 525-532): a space plus the option text for
the active divisor (the empty option when per-capita is off). -/
def perCapitaTitle (p : CovidQueryParams) : String :=
  " " ++ perCapitaOptions (if p.perCapita then perCapitaDivisor p else 1)

/-- chartTitle getter (lines 534-554). -/
def chartTitle (p : CovidQueryParams) : String :=
  let freq := if p.dailyFreq then "Daily new" else "Cumulative"
  let title :=
    if p.cfrMetric then "Case fatality rate of the ongoing COVID-19 pandemic"
    else if p.positiveTestRate then
      "The share of " ++ (if p.dailyFreq then "daily " else "") ++
        "COVID-19 tests that are positive"
    else if p.testsPerCaseMetric then
      (if p.totalFreq then "Cumulative tests" else "Tests") ++
        " conducted per confirmed case of COVID-19"
    else if p.testsMetric then freq ++ " COVID-19 tests"
    else if p.deathsMetric then freq ++ " confirmed COVID-19 deaths"
    else if p.casesMetric then freq ++ " confirmed COVID-19 cases"
    else ""
  title ++ perCapitaTitle p

/-- The variable id computed by initVariableAndGetId (lines 701-732) for a
call with the default per-capita argument. -/
def initVariableAndGetId (p : CovidQueryParams) (columnName : MetricKind) (daily : Bool) : Nat :=
  buildCovidVariableId columnName (if p.perCapita then perCapitaDivisor p else 1)
    p.smoothing daily

/-- Outcome of the yVariableId getter: the returned id, whether a variable
was built, and whether the error was logged to the console. -/
structure YVariableResult where
  id : Nat
  builtVariable : Bool
  loggedError : Bool
deriving DecidableEq, Repr

/-- yVariableId getter (lines 738-864). Each metric-and-frequency branch
builds a variable and returns its id; the two daily tests-per-case
branches differ only in the row accessor, so they yield the same id. The
final fallthrough logs an error and returns 0 without building anything. -/
def yVariableId (p : CovidQueryParams) : YVariableResult :=
  if p.testsMetric && p.dailyFreq then
    { id := initVariableAndGetId p MetricKind.tests true, builtVariable := true, loggedError := false }
  else if p.testsMetric && p.totalFreq then
    { id := initVariableAndGetId p MetricKind.tests false, builtVariable := true, loggedError := false }
  else if p.casesMetric && p.dailyFreq then
    { id := initVariableAndGetId p MetricKind.cases true, builtVariable := true, loggedError := false }
  else if p.casesMetric && p.totalFreq then
    { id := initVariableAndGetId p MetricKind.cases false, builtVariable := true, loggedError := false }
  else if p.deathsMetric && p.dailyFreq then
    { id := initVariableAndGetId p MetricKind.deaths true, builtVariable := true, loggedError := false }
  else if p.deathsMetric && p.totalFreq then
    { id := initVariableAndGetId p MetricKind.deaths false, builtVariable := true, loggedError := false }
  else if p.cfrMetric && p.dailyFreq then
    { id := initVariableAndGetId p MetricKind.case_fatality_rate true, builtVariable := true, loggedError := false }
  else if p.cfrMetric && p.totalFreq then
    { id := initVariableAndGetId p MetricKind.case_fatality_rate false, builtVariable := true, loggedError := false }
  else if p.testsPerCaseMetric && p.dailyFreq then
    { id := initVariableAndGetId p MetricKind.tests_per_case true, builtVariable := true, loggedError := false }
  else if p.testsPerCaseMetric && p.totalFreq then
    { id := initVariableAndGetId p MetricKind.tests_per_case false, builtVariable := true, loggedError := false }
  else if p.positiveTestRate && p.dailyFreq then
    { id := initVariableAndGetId p MetricKind.positive_test_rate true, builtVariable := true, loggedError := false }
  else if p.positiveTestRate && p.totalFreq then
    { id := initVariableAndGetId p MetricKind.positive_test_rate false, builtVariable := true, loggedError := false }
  else
    { id := 0, builtVariable := false, loggedError := true }

/-- clearMetricsCommand (lines 120-127): set all six metric flags false. -/
def clearMetricsCommand (p : CovidQueryParams) : CovidQueryParams :=
  { p with casesMetric := false, testsMetric := false, deathsMetric := false,
           cfrMetric := false, testsPerCaseMetric := false, positiveTestRate := false }

/-- The metricPicker onChange handler for Confirmed cases (lines 135-139). -/
def selectCasesMetric (p : CovidQueryParams) : CovidQueryParams :=
  { clearMetricsCommand p with casesMetric := true }

/-- The metricPicker onChange handler for Confirmed deaths (lines 145-149). -/
def selectDeathsMetric (p : CovidQueryParams) : CovidQueryParams :=
  { clearMetricsCommand p with deathsMetric := true }

/-- The metricPicker onChange handler for Case fatality rate (lines 156-160). -/
def selectCfrMetric (p : CovidQueryParams) : CovidQueryParams :=
  { clearMetricsCommand p with cfrMetric := true }

/-- The metricPicker onChange handler for Tests (lines 169-173). -/
def selectTestsMetric (p : CovidQueryParams) : CovidQueryParams :=
  { clearMetricsCommand p with testsMetric := true }

/-- The metricPicker onChange handler for Tests per confirmed case (lines 179-183). -/
def selectTestsPerCaseMetric (p : CovidQueryParams) : CovidQueryParams :=
  { clearMetricsCommand p with testsPerCaseMetric := true }

/-- The metricPicker onChange handler for Share of positive tests (lines 189-193). -/
def selectPositiveTestRate (p : CovidQueryParams) : CovidQueryParams :=
  { clearMetricsCommand p with positiveTestRate := true }

/-- Number of metric flags currently set. -/
def metricCount (p : CovidQueryParams) : Nat :=
  (if p.casesMetric then 1 else 0) + (if p.testsMetric then 1 else 0) +
  (if p.deathsMetric then 1 else 0) + (if p.cfrMetric then 1 else 0) +
  (if p.testsPerCaseMetric then 1 else 0) + (if p.positiveTestRate then 1 else 0)

/-- toggleSelectedCountry (lines 309-319) acting on the selected country
code set: a truthy value adds the code, an explicit false removes it, and
an undefined value flips the membership of this code. -/
def toggleSelectedCountry (codes : Finset String) (code : String) (value : Option Bool) :
    Finset String :=
  if value = some true then insert code codes
  else if value = some false then codes.erase code
  else if code ∈ codes then codes.erase code
  else insert code codes

/-! ## Sample explorer parameter states used by witnesses and counterexamples -/

/-- No metric selected (cumulative frequency on). -/
def pNoMetric : CovidQueryParams :=
  { casesMetric := false, testsMetric := false, deathsMetric := false, cfrMetric := false,
    testsPerCaseMetric := false, positiveTestRate := false, dailyFreq := false,
    totalFreq := true, perCapita := false, aligned := false, smoothing := 0 }

/-- Daily confirmed cases. -/
def pCasesDaily : CovidQueryParams :=
  { casesMetric := true, testsMetric := false, deathsMetric := false, cfrMetric := false,
    testsPerCaseMetric := false, positiveTestRate := false, dailyFreq := true,
    totalFreq := false, perCapita := false, aligned := false, smoothing := 0 }

/-- Daily confirmed cases with a 7-day smoothing window. -/
def pCasesDailySmooth : CovidQueryParams :=
  { pCasesDaily with smoothing := 7 }

/-- Cases metric selected but neither frequency flag set. -/
def pCasesNoFreq : CovidQueryParams :=
  { pCasesDaily with dailyFreq := false, totalFreq := false }

/-- Cumulative case fatality rate. -/
def pCfrTotal : CovidQueryParams :=
  { casesMetric := false, testsMetric := false, deathsMetric := false, cfrMetric := true,
    testsPerCaseMetric := false, positiveTestRate := false, dailyFreq := false,
    totalFreq := true, perCapita := false, aligned := false, smoothing := 0 }

/-! ## Search indexing batch script (scripts/indexToAlgolia.ts) -/

/-- A country from utils/countries: the script reads its slug and name. -/
structure Country where
  slug : String
  name : String
deriving DecidableEq, Repr

/-- A wp_posts row: the script reads its ID and the two columns of the
WHERE clause; the remaining columns only feed the abstract post
formatting. -/
structure WpPostRow where
  ID : Nat
  post_type : String
  post_status : String
deriving DecidableEq, Repr

/-- Modelled from the spec: the formatted post produced by wpdb.getFullPost
followed by formatPost (db/wpdb and site/server/formatting are not under
src); the script reads exactly these fields. -/
structure FormattedPost where
  id : Nat
  type : String
  slug : String
  title : String
  excerpt : String
  authors : String
  date : String
  modifiedDate : String
  html : String
deriving DecidableEq, Repr

/-- A record uploaded to the search index: one per country or one per post
chunk. -/
inductive AlgoliaRecord where
  | countryRecord (objectID : String) (type : String) (slug : String) (title : String)
      (content : String)
  | postRecord (objectID : String) (postId : Nat) (type : String) (slug : String)
      (title : String) (excerpt : String) (authors : String) (date : String)
      (modifiedDate : String) (content : String)
deriving DecidableEq, Repr

/-- The objectID of a record. -/
def AlgoliaRecord.objectID : AlgoliaRecord → String
  | AlgoliaRecord.countryRecord oid _ _ _ _ => oid
  | AlgoliaRecord.postRecord oid _ _ _ _ _ _ _ _ _ => oid

/-- The per-country record pushed by the first loop (lines 28-36). -/
def countryRecord (c : Country) : AlgoliaRecord :=
  AlgoliaRecord.countryRecord c.slug "country" c.slug c.name
    ("All available indicators for " ++ c.name ++ ".")

/-- The record pushed for chunk number i of a post (lines 53-68). -/
def mkChunkRecord (row : WpPostRow) (post : FormattedPost) (i : Nat) (c : String) : AlgoliaRecord :=
  AlgoliaRecord.postRecord (toString row.ID ++ "-c" ++ toString i) post.id post.type post.slug
    post.title post.excerpt post.authors post.date post.modifiedDate c

/-- The chunk loop of the script: a counter starting at the given index and
one record per chunk. -/
def chunkRecordsLoop (row : WpPostRow) (post : FormattedPost) :
    Nat → List String → List AlgoliaRecord
  | _, [] => []
  | i, c :: cs => mkChunkRecord row post i c :: chunkRecordsLoop row post (i + 1) cs

/-- Records contributed by one fetched row (lines 38-69): format the post,
strip it to plain text, cut it into chunks with limit 1000 and emit one
record per chunk with indices counting up from 0. The formatting,
plain-texting and chunking helpers live outside src and are parameters. -/
def postRecords (formatPost : WpPostRow → FormattedPost) (htmlToPlaintext : String → String)
    (chunkParagraphs : String → Nat → List String) (row : WpPostRow) : List AlgoliaRecord :=
  let post := formatPost row
  let postText := htmlToPlaintext post.html
  let chunks := chunkParagraphs postText 1000
  chunkRecordsLoop row post 0 chunks

/-- The record list built by the two push loops (lines 26-69): first one
record per country, then the chunk records of each fetched row. -/
def buildRecords (formatPost : WpPostRow → FormattedPost) (htmlToPlaintext : String → String)
    (chunkParagraphs : String → Nat → List String) (countries : List Country)
    (rows : List WpPostRow) : List AlgoliaRecord :=
  let countryRecs := countries.foldl (fun acc c => acc ++ [countryRecord c]) []
  rows.foldl (fun acc row => acc ++ postRecords formatPost htmlToPlaintext chunkParagraphs row)
    countryRecs

/-- Modelled from the spec: the WHERE clause of the SQL query (line 24),
post_type "post" or "page" and post_status "publish". -/
def publishedPostOrPage (r : WpPostRow) : Bool :=
  (r.post_type == "post" || r.post_type == "page") && r.post_status == "publish"

/-- Modelled from the spec: wpdb.query against the relational store (db/wpdb
is not under src) returns exactly the stored rows satisfying the WHERE
clause of the SELECT statement. -/
def wpQueryPosts (table : List WpPostRow) : List WpPostRow :=
  table.filter publishedPostOrPage

/-- The upload loop (lines 71-73): consecutive slices of at most 1000
records, in order. -/
def sliceLoop : List α → List (List α)
  | [] => []
  | x :: xs => (x :: xs).take 1000 :: sliceLoop ((x :: xs).drop 1000)
termination_by l => l.length
decreasing_by simp [List.length_drop]; omega

/-- An awaited external effect of the batch script. -/
inductive AlgoliaEvent where
  | copyIndex (source : String) (target : String) (scopes : List String)
  | fetchPosts (rows : List WpPostRow)
  | saveObjects (indexName : String) (records : List AlgoliaRecord)
  | moveIndex (source : String) (target : String)
  | closeDb
deriving DecidableEq, Repr

/-- The batch job indexToAlgolia (lines 12-77) as the sequence of external
effects it awaits, in program order: copy the settings, synonyms and rules
of the final index onto the temporary index, fetch the published rows,
upload the record list in consecutive slices of at most 1000 records onto
the temporary index, move the temporary index over the final one and close
the database connection. -/
def indexToAlgolia (formatPost : WpPostRow → FormattedPost) (htmlToPlaintext : String → String)
    (chunkParagraphs : String → Nat → List String) (countries : List Country)
    (table : List WpPostRow) : List AlgoliaEvent :=
  let rows := wpQueryPosts table
  let records := buildRecords formatPost htmlToPlaintext chunkParagraphs countries rows
  AlgoliaEvent.copyIndex "pages" "pages_tmp" ["settings", "synonyms", "rules"]
    :: AlgoliaEvent.fetchPosts rows
    :: ((sliceLoop records).map (AlgoliaEvent.saveObjects "pages_tmp")
      ++ [AlgoliaEvent.moveIndex "pages_tmp" "pages", AlgoliaEvent.closeDb])

/-! ## Sample batch-script inputs used by witnesses -/

/-- A concrete post formatter. -/
def fpSample : WpPostRow → FormattedPost :=
  fun r =>
    { id := r.ID, type := "post", slug := "covid", title := "Covid", excerpt := "",
      authors := "", date := "", modifiedDate := "", html := "Hello world" }

/-- A concrete plain-text conversion. -/
def h2tSample : String → String := fun s => s

/-- A concrete chunker producing a single chunk. -/
def chunkSample : String → Nat → List String := fun s _ => [s]

/-- A concrete country list. -/
def countriesSample : List Country := [{ slug := "usa", name := "United States" }]

/-- A concrete wp_posts table with one published row. -/
def tableSample : List WpPostRow :=
  [{ ID := 1, post_type := "post", post_status := "publish" }]

/-- An unpublished row. -/
def draftRow : WpPostRow := { ID := 2, post_type := "post", post_status := "draft" }

/-! ## Helper lemmas about the comparison and the sort -/

theorem cmpOf_gt_flip (lt : α → α → Bool) (a b : α) (h : cmpOf lt a b = Ordering.gt) :
    cmpOf lt b a = Ordering.lt := by
  unfold cmpOf at h ⊢
  by_cases h1 : lt a b = true
  · simp [h1] at h
  · by_cases h2 : lt b a = true
    · simp [h2]
    · simp [h1, h2] at h

theorem cmpKey_gt_flip : ∀ a b : SortKey, cmpKey a b = Ordering.gt → cmpKey b a = Ordering.lt
  | SortKey.num _, SortKey.num _, h => cmpOf_gt_flip _ _ _ h
  | SortKey.str _, SortKey.str _, h => cmpOf_gt_flip _ _ _ h
  | SortKey.num _, SortKey.str _, h => by simp [cmpKey] at h
  | SortKey.str _, SortKey.num _, h => by simp [cmpKey] at h

theorem keyLeB_total (order : SortOrder) (a b : SortKey) :
    keyLeB order a b = true ∨ keyLeB order b a = true := by
  cases order with
  | asc =>
    rcases hc : cmpKey a b with _ | _ | _
    · left; simp [keyLeB, cmpKeyDir, hc]
    · left; simp [keyLeB, cmpKeyDir, hc]
    · right; simp [keyLeB, cmpKeyDir, cmpKey_gt_flip a b hc]
  | desc =>
    rcases hc : cmpKey b a with _ | _ | _
    · left; simp [keyLeB, cmpKeyDir, hc]
    · left; simp [keyLeB, cmpKeyDir, hc]
    · right; simp [keyLeB, cmpKeyDir, cmpKey_gt_flip b a hc]

theorem orderedInsert_perm (le : α → α → Bool) (x : α) (l : List α) :
    List.Perm (orderedInsert le x l) (x :: l) := by
  induction l with
  | nil => simp [orderedInsert]
  | cons y ys ih =>
    simp only [orderedInsert]
    by_cases h : le x y = true
    · rw [if_pos h]
    · rw [if_neg h]
      exact (ih.cons y).trans (List.Perm.swap x y ys)

theorem orderedInsert_chain' (le : α → α → Bool)
    (htot : ∀ a b, le a b = true ∨ le b a = true) (x : α) :
    ∀ l : List α, List.Chain' (fun a b => le a b = true) l →
      List.Chain' (fun a b => le a b = true) (orderedInsert le x l) := by
  intro l
  induction l with
  | nil => intro _; simp [orderedInsert]
  | cons y ys ih =>
    intro hch
    simp only [orderedInsert]
    by_cases h : le x y = true
    · rw [if_pos h]
      exact List.chain'_cons.mpr ⟨h, hch⟩
    · rw [if_neg h]
      have hyx : le y x = true := (htot x y).resolve_left h
      refine List.chain'_cons'.mpr ⟨?_, ih hch.tail⟩
      intro z hz
      cases ys with
      | nil =>
        simp [orderedInsert] at hz
        subst hz; exact hyx
      | cons w ws =>
        simp only [orderedInsert] at hz
        by_cases hxw : le x w = true
        · rw [if_pos hxw] at hz
          simp at hz
          subst hz; exact hyx
        · rw [if_neg hxw] at hz
          simp at hz
          subst hz
          exact (List.chain'_cons.mp hch).1

theorem insertionSort_perm (le : α → α → Bool) (l : List α) :
    List.Perm (insertionSort le l) l := by
  induction l with
  | nil => simp [insertionSort]
  | cons x xs ih =>
    exact (orderedInsert_perm le x (insertionSort le xs)).trans (ih.cons x)

theorem insertionSort_chain' (le : α → α → Bool)
    (htot : ∀ a b, le a b = true ∨ le b a = true) (l : List α) :
    List.Chain' (fun a b => le a b = true) (insertionSort le l) := by
  induction l with
  | nil => simp [insertionSort]
  | cons x xs ih =>
    exact orderedInsert_chain' le htot x (insertionSort le xs) ih

/-! ## Claim theorems for the data table -/

/-- Claim C1: for every chart transform and every stored sort state whose
derived sort state exists, the rows the table displays are exactly the
transform rows reordered by the current sort state: displayRows is a
permutation of the transform rows (no row added, dropped or changed),
adjacent rows never violate the selected ascending or descending key order,
and when the entity column is selected the sort key is the entity name
(otherwise sortValueMapper reads the value of the selected dimension
column). -/
theorem displayRows_matches_sort (t : DataTableTransform) (stored st : DataTableSortState)
    (h : sortState t stored = some st) :
    displayRows t stored = some (orderBy t.displayRows (sortValueMapper st) st.order) ∧
    List.Perm (orderBy t.displayRows (sortValueMapper st) st.order) t.displayRows ∧
    List.Chain'
      (fun a b => keyLeB st.order (sortValueMapper st a) (sortValueMapper st b) = true)
      (orderBy t.displayRows (sortValueMapper st) st.order) ∧
    (st.dimIndex = ENTITY_DIM_INDEX → ∀ r, sortValueMapper st r = SortKey.str r.entity) := by
  refine ⟨?_, ?_, ?_, ?_⟩
  · simp [displayRows, h]
  · exact insertionSort_perm _ _
  · exact insertionSort_chain' _ (fun a b => keyLeB_total st.order _ _) _
  · intro hd r
    simp [sortValueMapper, hd]

/-- Witness for C1 at a concrete transform and the default sort state. -/
theorem displayRows_matches_sort_witness :
    displayRows tSample sortA = some (orderBy tSample.displayRows (sortValueMapper sortA) sortA.order) ∧
    List.Perm (orderBy tSample.displayRows (sortValueMapper sortA) sortA.order) tSample.displayRows ∧
    List.Chain'
      (fun a b => keyLeB sortA.order (sortValueMapper sortA a) (sortValueMapper sortA b) = true)
      (orderBy tSample.displayRows (sortValueMapper sortA) sortA.order) ∧
    (sortA.dimIndex = ENTITY_DIM_INDEX → ∀ r, sortValueMapper sortA r = SortKey.str r.entity) :=
  displayRows_matches_sort tSample sortA sortA (by decide)

/-- Claim C3 counterexample: the claim asserts that for every stored sort
state the derived sortState clamps the index and falls back to defaults,
returning a value. For the stored dimension index -2 (below the entity
index -1) the clamp leaves it at -2 and the source dereferences
dimensionsWithValues[-2].columns, i.e. a property of undefined, throwing a
TypeError instead of returning a fallback: the embedding yields none. -/
theorem sortState_counterexample :
    sortState tSample { dimIndex := -2, columnKey := none, order := SortOrder.asc } = none := by
  decide

/-- Claim C3 (amended): for every transform and every stored sort state
whose dimension index is at least -1 (the entity index), the derived
sortState exists, its dimension index is the stored one clamped to at most
the number of dimensions minus one, its order is the stored order, the
stored column key survives unchanged when the entity column is selected,
and otherwise the column key falls back to the dimension's first available
column exactly when the stored key is undefined or not among the
dimension's available column keys. -/
theorem sortState_fallback (t : DataTableTransform) (s : DataTableSortState)
    (h : ENTITY_DIM_INDEX ≤ s.dimIndex) :
    ∃ st, sortState t s = some st ∧
      st.dimIndex = min s.dimIndex ((t.dimensions.length : Int) - 1) ∧
      st.order = s.order ∧
      (st.dimIndex = ENTITY_DIM_INDEX → st.columnKey = s.columnKey) ∧
      (st.dimIndex ≠ ENTITY_DIM_INDEX →
        ∃ dim, t.dimensionsWithValues[st.dimIndex.toNat]? = some dim ∧
          st.columnKey =
            match s.columnKey with
            | none => (dim.columns.map (fun c => c.key)).head?
            | some k =>
              if (dim.columns.map (fun c => c.key)).contains k then some k
              else (dim.columns.map (fun c => c.key)).head?) := by
  have hmin : min s.dimIndex ((t.dimensions.length : Int) - 1) ≤ (t.dimensions.length : Int) - 1 :=
    min_le_right _ _
  by_cases he : min s.dimIndex ((t.dimensions.length : Int) - 1) = ENTITY_DIM_INDEX
  · refine ⟨{ dimIndex := min s.dimIndex ((t.dimensions.length : Int) - 1),
              columnKey := s.columnKey, order := s.order }, ?_, rfl, rfl, fun _ => rfl, ?_⟩
    · simp only [sortState, he]
      simp [he]
    · intro hne
      exact absurd he hne
  · have he' : ¬ min s.dimIndex ((t.dimensions.length : Int) - 1) = -1 := by
      unfold ENTITY_DIM_INDEX at he; exact he
    have h' : (-1 : Int) ≤ s.dimIndex := h
    have hm : min s.dimIndex ((t.dimensions.length : Int) - 1) ≤ (t.dimensions.length : Int) - 1 :=
      min_le_right _ _
    have hm' : (-1 : Int) ≤ min s.dimIndex ((t.dimensions.length : Int) - 1) := by
      have : (-1 : Int) ≤ (t.dimensions.length : Int) - 1 := by
        have : (0 : Int) ≤ (t.dimensions.length : Int) := Int.ofNat_nonneg _
        omega
      exact le_min h' this
    have h0 : 0 ≤ min s.dimIndex ((t.dimensions.length : Int) - 1) := by omega
    have hneg : ¬ min s.dimIndex ((t.dimensions.length : Int) - 1) < 0 := by omega
    have hlt : (min s.dimIndex ((t.dimensions.length : Int) - 1)).toNat < t.dimensions.length := by
      omega
    have hdim : (min s.dimIndex ((t.dimensions.length : Int) - 1)).toNat <
        t.dimensionsWithValues.length := by
      simpa [DataTableTransform.dimensionsWithValues] using hlt
    have hx : ∃ dim, t.dimensionsWithValues[(min s.dimIndex ((t.dimensions.length : Int) - 1)).toNat]? =
        some dim := by
      rw [List.getElem?_eq_getElem hdim]
      exact ⟨_, rfl⟩
    obtain ⟨dim, hget⟩ := hx
    refine ⟨{ dimIndex := min s.dimIndex ((t.dimensions.length : Int) - 1),
              columnKey :=
                match s.columnKey with
                | none => (dim.columns.map (fun c => c.key)).head?
                | some k =>
                  if (dim.columns.map (fun c => c.key)).contains k then some k
                  else (dim.columns.map (fun c => c.key)).head?,
              order := s.order }, ?_, rfl, rfl, fun hc => absurd hc he,
            fun _ => ⟨dim, hget, rfl⟩⟩
    simp only [sortState, ENTITY_DIM_INDEX]
    rw [if_neg he', if_neg hneg, hget]

/-- Witness for C3 at a concrete transform: a stored index of 7 clamps to
0 and the unavailable column key delta falls back to the first column. -/
theorem sortState_fallback_witness :
    ∃ st, sortState tSample sortOvershoot = some st ∧
      st.dimIndex = min sortOvershoot.dimIndex ((tSample.dimensions.length : Int) - 1) ∧
      st.order = sortOvershoot.order ∧
      (st.dimIndex = ENTITY_DIM_INDEX → st.columnKey = sortOvershoot.columnKey) ∧
      (st.dimIndex ≠ ENTITY_DIM_INDEX →
        ∃ dim, tSample.dimensionsWithValues[st.dimIndex.toNat]? = some dim ∧
          st.columnKey =
            match sortOvershoot.columnKey with
            | none => (dim.columns.map (fun c => c.key)).head?
            | some k =>
              if (dim.columns.map (fun c => c.key)).contains k then some k
              else (dim.columns.map (fun c => c.key)).head?) :=
  sortState_fallback tSample sortOvershoot (by decide)

/-- Claim C8: given any current derived sort state, updateSort called with
the currently sorted dimension index and column key inverts the order while
keeping the same column selected; called with any other pair it selects
that pair and resets the order to ascending. -/
theorem updateSort_spec (t : DataTableTransform) (stored cur : DataTableSortState)
    (h : sortState t stored = some cur) :
    updateSort t stored cur.dimIndex cur.columnKey =
      some { dimIndex := cur.dimIndex, columnKey := cur.columnKey,
             order := inverseSortOrder cur.order } ∧
    ∀ d k, ¬(d = cur.dimIndex ∧ k = cur.columnKey) →
      updateSort t stored d k = some { dimIndex := d, columnKey := k, order := SortOrder.asc } := by
  constructor
  · simp [updateSort, h]
  · intro d k hne
    have hcond : ¬(cur.dimIndex = d ∧ cur.columnKey = k) := by
      intro hc
      exact hne ⟨hc.1.symm, hc.2.symm⟩
    simp [updateSort, h, hcond]

/-- Witness for C8 at a concrete transform and the default sort state. -/
theorem updateSort_spec_witness :
    updateSort tSample sortA sortA.dimIndex sortA.columnKey =
      some { dimIndex := sortA.dimIndex, columnKey := sortA.columnKey,
             order := inverseSortOrder sortA.order } ∧
    ∀ d k, ¬(d = sortA.dimIndex ∧ k = sortA.columnKey) →
      updateSort tSample sortA d k = some { dimIndex := d, columnKey := k, order := SortOrder.asc } :=
  updateSort_spec tSample sortA sortA (by decide)

/-! ## Helper lemmas for variable ids -/

theorem natConcat_pos (a b : Nat) (h : 0 < a) : 0 < natConcat a b := by
  unfold natConcat
  exact Nat.lt_of_lt_of_le (mul_pos h (pow_pos (by norm_num) _)) (Nat.le_add_right _ _)

theorem initVariableAndGetId_ne_zero (p : CovidQueryParams) (name : MetricKind) (daily : Bool) :
    initVariableAndGetId p name daily ≠ 0 := by
  have hpos : 0 < initVariableAndGetId p name daily := by
    unfold initVariableAndGetId buildCovidVariableId
    exact natConcat_pos _ _ (natConcat_pos _ _ (natConcat_pos _ _ (natConcat_pos _ _ (by norm_num))))
  omega

theorem yVariableId_built (p : CovidQueryParams)
    (hm : (p.casesMetric || p.testsMetric || p.deathsMetric || p.cfrMetric ||
      p.testsPerCaseMetric || p.positiveTestRate) = true)
    (hf : (p.dailyFreq || p.totalFreq) = true) :
    ∃ name daily, yVariableId p =
      { id := initVariableAndGetId p name daily, builtVariable := true, loggedError := false } := by
  obtain ⟨c, te, d, cf, tpc, ptr, df, tf, pc, al, sm⟩ := p
  cases c <;> cases te <;> cases d <;> cases cf <;> cases tpc <;> cases ptr <;>
    cases df <;> cases tf <;>
    first
      | exact ⟨_, _, rfl⟩
      | simp_all

theorem dailyNewCases_append_lit :
    "Daily new" ++ " confirmed COVID-19 cases" = "Daily new confirmed COVID-19 cases" := by
  decide

/-! ## Claim theorems for the covid data explorer -/

/-- Claim C4 counterexample: the claim asserts that whenever at least one of
the six metric flags is set, yVariableId returns a non-default id with no
error logged. With the cases metric set but neither frequency flag set, the
getter falls through every branch, logs the error and returns the default
0, refuting the claim as stated. -/
theorem yVariableId_no_frequency_counterexample :
    (pCasesNoFreq.casesMetric || pCasesNoFreq.testsMetric || pCasesNoFreq.deathsMetric ||
      pCasesNoFreq.cfrMetric || pCasesNoFreq.testsPerCaseMetric ||
      pCasesNoFreq.positiveTestRate) = true ∧
    yVariableId pCasesNoFreq = { id := 0, builtVariable := false, loggedError := true } := by
  decide

/-- Claim C4 (amended): when none of the six metric flags is set,
yVariableId builds no variable, logs the error and returns the default 0;
when at least one metric flag is set and at least one of the daily or total
frequency flags is set, it returns a non-default id, builds the variable
and logs no error. -/
theorem yVariableId_fallback (p : CovidQueryParams) :
    ((p.casesMetric || p.testsMetric || p.deathsMetric || p.cfrMetric ||
        p.testsPerCaseMetric || p.positiveTestRate) = false →
      yVariableId p = { id := 0, builtVariable := false, loggedError := true }) ∧
    ((p.casesMetric || p.testsMetric || p.deathsMetric || p.cfrMetric ||
        p.testsPerCaseMetric || p.positiveTestRate) = true →
      (p.dailyFreq || p.totalFreq) = true →
      (yVariableId p).id ≠ 0 ∧ (yVariableId p).builtVariable = true ∧
        (yVariableId p).loggedError = false) := by
  constructor
  · intro h
    simp only [Bool.or_eq_false_iff] at h
    obtain ⟨⟨⟨⟨⟨h1, h2⟩, h3⟩, h4⟩, h5⟩, h6⟩ := h
    simp [yVariableId, h1, h2, h3, h4, h5, h6]
  · intro hm hf
    obtain ⟨name, daily, heq⟩ := yVariableId_built p hm hf
    rw [heq]
    exact ⟨initVariableAndGetId_ne_zero p name daily, rfl, rfl⟩

/-- Witness for C4: the no-metric state yields the default; daily cases
yields a non-default id with no error. -/
theorem yVariableId_fallback_witness :
    yVariableId pNoMetric = { id := 0, builtVariable := false, loggedError := true } ∧
    ((yVariableId pCasesDaily).id ≠ 0 ∧ (yVariableId pCasesDaily).builtVariable = true ∧
      (yVariableId pCasesDaily).loggedError = false) :=
  ⟨(yVariableId_fallback pNoMetric).1 (by decide),
   (yVariableId_fallback pCasesDaily).2 (by decide) (by decide)⟩

/-- Claim C5: the chart title is determined by the metric flags, the
frequency flags and the per-capita option alone (in particular it ignores
the smoothing window), a single selected cases metric with daily frequency
titles the chart Daily new confirmed COVID-19 cases plus the per-capita
suffix, and the case fatality rate metric titles it Case fatality rate of
the ongoing COVID-19 pandemic plus the suffix regardless of frequency. -/
theorem chartTitle_determined :
    (∀ p q : CovidQueryParams,
      p.casesMetric = q.casesMetric → p.testsMetric = q.testsMetric →
      p.deathsMetric = q.deathsMetric → p.cfrMetric = q.cfrMetric →
      p.testsPerCaseMetric = q.testsPerCaseMetric → p.positiveTestRate = q.positiveTestRate →
      p.dailyFreq = q.dailyFreq → p.totalFreq = q.totalFreq → p.perCapita = q.perCapita →
      chartTitle p = chartTitle q) ∧
    (∀ p : CovidQueryParams, p.casesMetric = true → p.testsMetric = false →
      p.deathsMetric = false → p.cfrMetric = false → p.testsPerCaseMetric = false →
      p.positiveTestRate = false → p.dailyFreq = true →
      chartTitle p = "Daily new confirmed COVID-19 cases" ++ perCapitaTitle p) ∧
    (∀ p : CovidQueryParams, p.cfrMetric = true →
      chartTitle p = "Case fatality rate of the ongoing COVID-19 pandemic" ++ perCapitaTitle p) := by
  refine ⟨?_, ?_, ?_⟩
  · intro p q h1 h2 h3 h4 h5 h6 h7 h8 h9
    simp only [chartTitle, perCapitaTitle, perCapitaDivisor, perCapitaOptions,
      h1, h2, h3, h4, h5, h6, h7, h8, h9]
  · intro p h1 h2 h3 h4 h5 h6 h7
    simp [chartTitle, h1, h2, h3, h4, h5, h6, h7, dailyNewCases_append_lit]
  · intro p h1
    simp [chartTitle, h1]

/-- Witness for C5: two daily-cases states differing only in smoothing get
the same title, and the two example titles hold at concrete states. -/
theorem chartTitle_determined_witness :
    chartTitle pCasesDaily = chartTitle pCasesDailySmooth ∧
    chartTitle pCasesDaily = "Daily new confirmed COVID-19 cases" ++ perCapitaTitle pCasesDaily ∧
    chartTitle pCfrTotal =
      "Case fatality rate of the ongoing COVID-19 pandemic" ++ perCapitaTitle pCfrTotal :=
  ⟨chartTitle_determined.1 pCasesDaily pCasesDailySmooth rfl rfl rfl rfl rfl rfl rfl rfl rfl,
   chartTitle_determined.2.1 pCasesDaily rfl rfl rfl rfl rfl rfl rfl,
   chartTitle_determined.2.2 pCfrTotal rfl⟩

/-- Claim C9: clearMetricsCommand leaves no metric flag set, and every
metric-picker change handler (clear followed by setting its own flag)
leaves exactly one of the six metric flags set. -/
theorem metricPicker_exclusive (p : CovidQueryParams) :
    metricCount (clearMetricsCommand p) = 0 ∧
    metricCount (selectCasesMetric p) = 1 ∧
    metricCount (selectDeathsMetric p) = 1 ∧
    metricCount (selectCfrMetric p) = 1 ∧
    metricCount (selectTestsMetric p) = 1 ∧
    metricCount (selectTestsPerCaseMetric p) = 1 ∧
    metricCount (selectPositiveTestRate p) = 1 := by
  simp [metricCount, clearMetricsCommand, selectCasesMetric, selectDeathsMetric,
    selectCfrMetric, selectTestsMetric, selectTestsPerCaseMetric, selectPositiveTestRate]

/-- Claim C10: toggling with true makes the code a member, with false a
non-member, with undefined flips its membership, and in every case no other
code's membership changes. -/
theorem toggleSelectedCountry_spec (codes : Finset String) (code : String) :
    code ∈ toggleSelectedCountry codes code (some true) ∧
    code ∉ toggleSelectedCountry codes code (some false) ∧
    (code ∈ toggleSelectedCountry codes code none ↔ code ∉ codes) ∧
    (∀ (value : Option Bool) (other : String), other ≠ code →
      (other ∈ toggleSelectedCountry codes code value ↔ other ∈ codes)) := by
  refine ⟨?_, ?_, ?_, ?_⟩
  · simp [toggleSelectedCountry]
  · simp [toggleSelectedCountry]
  · by_cases h : code ∈ codes <;> simp [toggleSelectedCountry, h]
  · intro value other hne
    rcases value with _ | b
    · by_cases h : code ∈ codes <;>
        simp [toggleSelectedCountry, h, hne, Finset.mem_erase, Finset.mem_insert]
    · cases b <;> simp [toggleSelectedCountry, hne, Finset.mem_erase, Finset.mem_insert]

/-- Witness for C10 at a concrete selection set and country codes. -/
theorem toggleSelectedCountry_spec_witness :
    "GBR" ∈ toggleSelectedCountry {"USA"} "GBR" (some true) ∧
    ("USA" ∈ toggleSelectedCountry {"USA"} "GBR" (some true) ↔ "USA" ∈ ({"USA"} : Finset String)) :=
  ⟨(toggleSelectedCountry_spec {"USA"} "GBR").1,
   (toggleSelectedCountry_spec {"USA"} "GBR").2.2.2 (some true) "USA" (by decide)⟩

/-! ## Helper lemmas for the batch script -/

theorem foldl_push_map (f : α → β) :
    ∀ (l : List α) (acc : List β), l.foldl (fun a c => a ++ [f c]) acc = acc ++ l.map f := by
  intro l
  induction l with
  | nil => intro acc; simp
  | cons x xs ih =>
    intro acc
    rw [List.foldl_cons, ih]
    simp

theorem foldl_push_flatMap (f : α → List β) :
    ∀ (l : List α) (acc : List β), l.foldl (fun a c => a ++ f c) acc = acc ++ l.flatMap f := by
  intro l
  induction l with
  | nil => intro acc; simp
  | cons x xs ih =>
    intro acc
    rw [List.foldl_cons, ih]
    simp

theorem buildRecords_eq (fp : WpPostRow → FormattedPost) (h2t : String → String)
    (chunk : String → Nat → List String) (countries : List Country) (rows : List WpPostRow) :
    buildRecords fp h2t chunk countries rows =
      countries.map countryRecord ++ rows.flatMap (postRecords fp h2t chunk) := by
  unfold buildRecords
  rw [foldl_push_map, foldl_push_flatMap]
  simp

theorem chunkRecordsLoop_eq (row : WpPostRow) (post : FormattedPost) :
    ∀ (cs : List String) (i : Nat),
      chunkRecordsLoop row post i cs =
        (List.enumFrom i cs).map (fun q => mkChunkRecord row post q.1 q.2) := by
  intro cs
  induction cs with
  | nil => intro i; simp [chunkRecordsLoop]
  | cons c cs ih => intro i; simp [chunkRecordsLoop, List.enumFrom, ih]

theorem sliceLoop_props : ∀ (n : Nat) (l : List α), l.length ≤ n →
    (sliceLoop l).flatten = l ∧
      (sliceLoop l).all (fun s => decide (s.length ≤ 1000)) = true := by
  intro n
  induction n with
  | zero =>
    intro l hl
    have hnil : l = [] := List.eq_nil_of_length_eq_zero (Nat.le_zero.mp hl)
    subst hnil
    simp [sliceLoop]
  | succ n ih =>
    intro l hl
    cases l with
    | nil => simp [sliceLoop]
    | cons x xs =>
      have hdrop : ((x :: xs).drop 1000).length ≤ n := by
        simp only [List.length_drop, List.length_cons] at hl ⊢
        omega
      obtain ⟨h1, h2⟩ := ih _ hdrop
      refine ⟨?_, ?_⟩
      · rw [sliceLoop]
        simp only [List.flatten_cons, h1]
        exact List.take_append_drop _ _
      · rw [sliceLoop]
        simp only [List.all_cons, h2, Bool.and_true, decide_eq_true_eq, List.length_take]
        exact Nat.min_le_left _ _

/-! ## Claim theorems for the batch script -/

/-- Claim C2: the batch job is a single linear sequence with no retry: it
copies settings, synonyms and rules from the final index to the temporary
one, fetches the post rows, builds the record list (first one record per
country whose objectID is the country slug, then, for each post, one record
per chunk produced by the 1000-limit chunker, with objectID rowID-cI for
chunk indices I counting up from 0), uploads the records and finally moves
the temporary index over the final one. -/
theorem indexToAlgolia_linear (fp : WpPostRow → FormattedPost) (h2t : String → String)
    (chunk : String → Nat → List String) (countries : List Country) (table : List WpPostRow) :
    indexToAlgolia fp h2t chunk countries table =
      AlgoliaEvent.copyIndex "pages" "pages_tmp" ["settings", "synonyms", "rules"]
        :: AlgoliaEvent.fetchPosts (wpQueryPosts table)
        :: ((sliceLoop (buildRecords fp h2t chunk countries (wpQueryPosts table))).map
              (AlgoliaEvent.saveObjects "pages_tmp")
          ++ [AlgoliaEvent.moveIndex "pages_tmp" "pages", AlgoliaEvent.closeDb]) ∧
    buildRecords fp h2t chunk countries (wpQueryPosts table) =
      countries.map countryRecord ++ (wpQueryPosts table).flatMap (postRecords fp h2t chunk) ∧
    (∀ c : Country, (countryRecord c).objectID = c.slug) ∧
    (∀ row : WpPostRow, postRecords fp h2t chunk row =
      (List.enumFrom 0 (chunk (h2t (fp row).html) 1000)).map
        (fun q => mkChunkRecord row (fp row) q.1 q.2)) ∧
    (∀ (row : WpPostRow) (post : FormattedPost) (i : Nat) (c : String),
      (mkChunkRecord row post i c).objectID = toString row.ID ++ "-c" ++ toString i) := by
  refine ⟨rfl, buildRecords_eq fp h2t chunk countries _, fun c => rfl, fun row => ?_,
    fun row post i c => rfl⟩
  simp [postRecords, chunkRecordsLoop_eq]

/-- Claim C6: the uploads are sequential slices: every saved slice holds at
most 1000 records, the concatenation of the slices in upload order is
exactly the record list (each record uploaded exactly once, slice i before
slice i+1), and the moveIndex event comes only after every saveObjects
event in the awaited sequence. -/
theorem indexToAlgolia_upload_batches (fp : WpPostRow → FormattedPost) (h2t : String → String)
    (chunk : String → Nat → List String) (countries : List Country) (table : List WpPostRow) :
    (sliceLoop (buildRecords fp h2t chunk countries (wpQueryPosts table))).all
      (fun s => decide (s.length ≤ 1000)) = true ∧
    (sliceLoop (buildRecords fp h2t chunk countries (wpQueryPosts table))).flatten =
      buildRecords fp h2t chunk countries (wpQueryPosts table) ∧
    indexToAlgolia fp h2t chunk countries table =
      (AlgoliaEvent.copyIndex "pages" "pages_tmp" ["settings", "synonyms", "rules"]
        :: AlgoliaEvent.fetchPosts (wpQueryPosts table)
        :: (sliceLoop (buildRecords fp h2t chunk countries (wpQueryPosts table))).map
            (AlgoliaEvent.saveObjects "pages_tmp"))
      ++ [AlgoliaEvent.moveIndex "pages_tmp" "pages", AlgoliaEvent.closeDb] := by
  obtain ⟨h1, h2⟩ := sliceLoop_props
    (buildRecords fp h2t chunk countries (wpQueryPosts table)).length
    (buildRecords fp h2t chunk countries (wpQueryPosts table)) le_rfl
  exact ⟨h2, h1, rfl⟩

/-- Claim C7: the rows the script fetches are exactly the stored rows with
post_type post or page and post_status publish, and appending an
unpublished or other-typed row to the store contributes nothing: the whole
awaited sequence, records included, is unchanged. -/
theorem wpQuery_published_only (fp : WpPostRow → FormattedPost) (h2t : String → String)
    (chunk : String → Nat → List String) (countries : List Country)
    (table : List WpPostRow) (row : WpPostRow)
    (h : publishedPostOrPage row = false) :
    (∀ r, r ∈ wpQueryPosts table ↔
      r ∈ table ∧ (r.post_type = "post" ∨ r.post_type = "page") ∧ r.post_status = "publish") ∧
    indexToAlgolia fp h2t chunk countries (table ++ [row]) =
      indexToAlgolia fp h2t chunk countries table := by
  constructor
  · intro r
    simp [wpQueryPosts, List.mem_filter, publishedPostOrPage, and_assoc]
  · have hq : wpQueryPosts (table ++ [row]) = wpQueryPosts table := by
      simp [wpQueryPosts, List.filter_append, h]
    simp [indexToAlgolia, hq]

/-- Witness for C7 at a concrete store, with a draft row appended. -/
theorem wpQuery_published_only_witness :
    (∀ r, r ∈ wpQueryPosts tableSample ↔
      r ∈ tableSample ∧ (r.post_type = "post" ∨ r.post_type = "page") ∧
        r.post_status = "publish") ∧
    indexToAlgolia fpSample h2tSample chunkSample countriesSample (tableSample ++ [draftRow]) =
      indexToAlgolia fpSample h2tSample chunkSample countriesSample tableSample :=
  wpQuery_published_only fpSample h2tSample chunkSample countriesSample tableSample draftRow
    (by decide)
